import Mathlib

/-!
Shallow embedding of the link-shortening service in
`src/routes/link_shortner.rs` (the api.groupify repository).

The four HTTP handlers (`redirect`, `create_link`, `update_link`,
`get_link_statistics`) are embedded as pure functions over an explicit
database state holding the two relations `links` and `link_statistics`.
External effects are passed in as parameters: the result of `Url::parse`
(url crate), the random number drawn inside `generate_id` (rand crate),
and the observed outcome of each timeout-wrapped database call.
-/

namespace LinkShortner

/-- Value of the constant `DEFAULT_CACHE_CONTROL_HEADER_VALUE` attached to every
redirect response (including its `state-while-revalidate` spelling). -/
def DEFAULT_CACHE_CONTROL_HEADER_VALUE : String :=
  "public, max-age=300, s-maxage=300, state-while-revalidate=300, stale-if-error=300"

/-- Row of the `links` relation (struct `Link` in the source): short id and
target URL. The `id` column is the primary key. -/
structure Link where
  id : String
  target_url : String
deriving DecidableEq, Repr

/-- Row of the append-only `link_statistics` relation: one recorded redirect
event with optional referer and user agent. -/
structure LinkStatRow where
  link_id : String
  referer : Option String
  user_agent : Option String
deriving DecidableEq, Repr

/-- Aggregated statistics row (struct `CounterLinkStatistics` in the source). -/
structure CounterLinkStatistics where
  amount : Option Int
  referer : Option String
  user_agent : Option String
deriving DecidableEq, Repr

/-- The persistent store: the two relations. -/
structure DbState where
  links : List Link
  link_statistics : List LinkStatRow
deriving DecidableEq, Repr

/-- Observable part of the HTTP response built by `redirect`. -/
structure Response where
  status : Nat
  location : Option String
  cacheControl : Option String
deriving DecidableEq, Repr

/-- Modelled from the spec: `internal_error` lives in `src/utils.rs`, which is
not among the sources. Per the spec, datastore and timeout failures surface as
HTTP 500 with the error's textual description as the body. -/
def internal_error (e : String) : Nat × String := (500, e)

/-- Outcome of a timeout-wrapped database call as observed by the caller: the
call completes, fails with a database error described by a string, or the
1000ms timeout elapses first. -/
inductive DbCallOutcome where
  | completes
  | dbFails (e : String)
  | timesOut
deriving DecidableEq, Repr

/-- Modelled from the spec: textual description of the tokio timeout error
(the `Elapsed` value handed to `internal_error` when a bounded call times out). -/
def timeoutElapsedDescription : String := "deadline has elapsed"

/-- Modelled from the spec: textual description of the sqlx row-not-found error
produced when a single-row fetch (`fetch_one`) matches no row. -/
def rowNotFoundDescription : String :=
  "no rows returned by a query that expected to return at least one row"

/-- Modelled from the spec: description of the primary-key violation raised by
the datastore when inserting a duplicate id into `links` (id TEXT PRIMARY KEY). -/
def uniqueConstraintDescription : String := "UNIQUE constraint failed: links.id"

/-- Value of `u32::MAX` in Rust. -/
def u32MAX : Nat := 4294967295

/-- Possible results of the random draw in `generate_id`: the source samples
`gen_range(0..u32::MAX)`, a half-open range. -/
def possibleDraw (n : Nat) : Prop := n < u32MAX

instance : DecidablePred possibleDraw :=
  fun n => inferInstanceAs (Decidable (n < u32MAX))

/-- One decimal digit rendered as a character. -/
def digitChar (d : Nat) : Char := Char.ofNat (48 + d % 10)

/-- Fuel-indexed base-10 rendering; fuel `n + 1` always suffices for `n`. -/
def decCharsAux : Nat → Nat → List Char
  | 0, _ => []
  | fuel + 1, n =>
    if n < 10 then [digitChar n]
    else decCharsAux fuel (n / 10) ++ [digitChar (n % 10)]

/-- Base-10 decimal rendering of a natural number, as Rust's `u32::to_string`. -/
def natToDecimalString (n : Nat) : String := String.mk (decCharsAux (n + 1) n)

/-- Alphabet of the URL-safe base64 engine (`URL_SAFE_NO_PAD`). -/
def b64UrlSafeAlphabet : List Char :=
  "ABCDEFGHIJKLMNOPQRSTUVWXYZabcdefghijklmnopqrstuvwxyz0123456789-_".toList

/-- Character encoding one six-bit group. -/
def sixBitChar (x : Nat) : Char := b64UrlSafeAlphabet.getD (x % 64) 'A'

/-- URL-safe base64 without padding over a byte list, as
`general_purpose::URL_SAFE_NO_PAD.encode`. -/
def b64EncodeBytes : List Nat → List Char
  | [] => []
  | [a] => [sixBitChar (a / 4), sixBitChar (a % 4 * 16)]
  | [a, b] =>
    [sixBitChar (a / 4), sixBitChar (a % 4 * 16 + b / 16), sixBitChar (b % 16 * 4)]
  | a :: b :: c :: rest =>
    sixBitChar (a / 4) :: sixBitChar (a % 4 * 16 + b / 16) ::
      sixBitChar (b % 16 * 4 + c / 64) :: sixBitChar (c % 64) :: b64EncodeBytes rest

/-- Bytes of an ASCII string (UTF-8 agrees on the decimal digits involved). -/
def stringBytes (s : String) : List Nat := s.data.map Char.toNat

/-- Embeds `generate_id` applied to the drawn random number: render it in
decimal, then encode the string URL-safe base64 without padding. -/
def generate_id (n : Nat) : String :=
  String.mk (b64EncodeBytes (stringBytes (natToDecimalString n)))

/-- A non-empty string all of whose characters belong to the URL-safe base64
alphabet. -/
def isUrlSafeToken (s : String) : Prop :=
  s ≠ "" ∧ ∀ c ∈ s.data, c ∈ b64UrlSafeAlphabet

instance (s : String) : Decidable (isUrlSafeToken s) :=
  inferInstanceAs (Decidable (s ≠ "" ∧ ∀ c ∈ s.data, c ∈ b64UrlSafeAlphabet))

/-- Embeds `redirect`. The link lookup (`fetch_optional`) is not wrapped in a
timeout; `lookupErr` models a database failure of that query (`none` when it
succeeds), and `statOutcome` the observed outcome of the timeout-wrapped
statistic insert. Returns the handler result and the database state after the
call: on insert failure or timeout the error is only logged, and no row is
recorded. -/
def redirect (db : DbState) (requested_link : String)
    (referer_header user_agent_header : Option String)
    (lookupErr : Option String) (statOutcome : DbCallOutcome) :
    Except (Nat × String) Response × DbState :=
  match lookupErr with
  | some e => (Except.error (internal_error e), db)
  | none =>
    match db.links.find? (fun l => l.id == requested_link) with
    | none => (Except.error (404, "Not Found"), db)
    | some link =>
      let db' :=
        match statOutcome with
        | DbCallOutcome.completes =>
          { db with link_statistics :=
              db.link_statistics ++
                [⟨requested_link, referer_header, user_agent_header⟩] }
        | _ => db
      (Except.ok { status := 307, location := some link.target_url,
                   cacheControl := some DEFAULT_CACHE_CONTROL_HEADER_VALUE }, db')

/-- Embeds `create_link`. `parseResult` models the value of
`Url::parse(target_url).map(to_string)` from the url crate (`none` on parse
failure, otherwise the normalized URL); `n` is the random number drawn inside
`generate_id`; `insertOutcome` is the observed outcome of the timeout-wrapped
`INSERT ... RETURNING` fetch. Since `links.id` is the primary key, a completed
insert of a duplicate id is a constraint failure. -/
def create_link (db : DbState) (parseResult : Option String) (n : Nat)
    (insertOutcome : DbCallOutcome) : Except (Nat × String) Link × DbState :=
  match parseResult with
  | none => (Except.error (409, "url malformed"), db)
  | some url =>
    let new_link_id := generate_id n
    match insertOutcome with
    | DbCallOutcome.timesOut =>
      (Except.error (internal_error timeoutElapsedDescription), db)
    | DbCallOutcome.dbFails e => (Except.error (internal_error e), db)
    | DbCallOutcome.completes =>
      if db.links.any (fun l => l.id == new_link_id) then
        (Except.error (internal_error uniqueConstraintDescription), db)
      else
        (Except.ok ⟨new_link_id, url⟩,
          { db with links := db.links ++ [⟨new_link_id, url⟩] })

/-- Embeds `update_link`. `parseResult` models `Url::parse(target_url)` as in
`create_link`; `outcome` is the observed outcome of the timeout-wrapped
`update ... returning` single-row fetch, which fails with the row-not-found
error when no row matches `link_id`. -/
def update_link (db : DbState) (link_id : String) (parseResult : Option String)
    (outcome : DbCallOutcome) : Except (Nat × String) Link × DbState :=
  match parseResult with
  | none => (Except.error (409, "Url malformed"), db)
  | some url =>
    match outcome with
    | DbCallOutcome.timesOut =>
      (Except.error (internal_error timeoutElapsedDescription), db)
    | DbCallOutcome.dbFails e => (Except.error (internal_error e), db)
    | DbCallOutcome.completes =>
      match db.links.find? (fun l => l.id == link_id) with
      | none => (Except.error (internal_error rowNotFoundDescription), db)
      | some _ =>
        (Except.ok ⟨link_id, url⟩,
          { db with links := db.links.map (fun l =>
              if l.id == link_id then { l with target_url := url } else l) })

/-- Group key of a statistics row: the columns of the
`group by link_id, referer, user_agent` clause. -/
def tripleOf (r : LinkStatRow) : String × Option String × Option String :=
  (r.link_id, r.referer, r.user_agent)

/-- Embeds the grouped-count query of `get_link_statistics`: group
`link_statistics` by `(link_id, referer, user_agent)`, keep the groups
`having link_id = $1`, and report `count(*)` with the group's referer and
user agent. -/
def statisticsQuery (rows : List LinkStatRow) (link_id : String) :
    List CounterLinkStatistics :=
  ((rows.map tripleOf).dedup.filter (fun k => k.1 == link_id)).map
    (fun k => { amount := some ((rows.map tripleOf).count k : Int),
                referer := k.2.1, user_agent := k.2.2 })

/-- Embeds `get_link_statistics`: the grouped-count fetch is wrapped in the
1000ms timeout; on success the grouped rows are returned as-is (no existence
check on the link). -/
def get_link_statistics (db : DbState) (link_id : String)
    (outcome : DbCallOutcome) :
    Except (Nat × String) (List CounterLinkStatistics) :=
  match outcome with
  | DbCallOutcome.timesOut =>
    Except.error (internal_error timeoutElapsedDescription)
  | DbCallOutcome.dbFails e => Except.error (internal_error e)
  | DbCallOutcome.completes =>
    Except.ok (statisticsQuery db.link_statistics link_id)

/-- One database call issued by a handler: the operation performing it, the SQL
text, and the timeout (in milliseconds) it is wrapped in, if any. -/
structure DbCall where
  operation : String
  statement : String
  timeoutMs : Option Nat
deriving DecidableEq, Repr

/-- The link lookup performed by `redirect` (`fetch_optional`): it is awaited
directly, with no timeout wrapper. -/
def redirectLinkLookupCall : DbCall :=
  { operation := "redirect",
    statement := "select id, target_url from links where id = $1",
    timeoutMs := none }

/-- Every database call issued by the four handlers, with the timeout each is
wrapped in, read off the source. -/
def dbCalls : List DbCall :=
  [ redirectLinkLookupCall,
    { operation := "redirect",
      statement := "insert into link_statistics(link_id, referer, user_agent) values($1, $2, $3)",
      timeoutMs := some 1000 },
    { operation := "create_link",
      statement := "INSERT INTO links (id, target_url) VALUES ($1, $2) RETURNING id, target_url",
      timeoutMs := some 1000 },
    { operation := "update_link",
      statement := "update links set target_url = $1 where id = $2 returning id, target_url",
      timeoutMs := some 1000 },
    { operation := "get_link_statistics",
      statement := "select count(*) as amount, referer, user_agent from link_statistics group by link_id, referer, user_agent having link_id = $1",
      timeoutMs := some 1000 } ]

/-! Helper lemmas shared by the claim theorems. -/

/-- Under the primary-key invariant (distinct ids), the lookup of a stored
link's id finds exactly that link. -/
theorem find?_id_eq_of_mem (links : List Link) (link : Link)
    (hmem : link ∈ links) (hnodup : (links.map Link.id).Nodup) :
    links.find? (fun l => l.id == link.id) = some link := by
  induction links with
  | nil => cases hmem
  | cons h t ih =>
    simp only [List.map_cons, List.nodup_cons] at hnodup
    rcases List.mem_cons.mp hmem with rfl | hmt
    · rw [List.find?_cons_of_pos t (by simp)]
    · have hne : h.id ≠ link.id := by
        intro he
        exact hnodup.1 (he ▸ List.mem_map_of_mem Link.id hmt)
      rw [List.find?_cons_of_neg t (by simpa using hne)]
      exact ih hmt hnodup.2

/-- When the lookup finds a link, redirect returns 307 with the stored target
as Location and the fixed Cache-Control value, whatever the headers and the
outcome of the statistic insert. -/
theorem redirect_of_find? (db : DbState) (requested : String)
    (ref ua : Option String) (o : DbCallOutcome) (link : Link)
    (hfound : db.links.find? (fun l => l.id == requested) = some link) :
    (redirect db requested ref ua none o).1 =
      Except.ok { status := 307, location := some link.target_url,
                  cacheControl := some DEFAULT_CACHE_CONTROL_HEADER_VALUE } := by
  unfold redirect
  rw [hfound]

/-- Decimal rendering never produces the empty character list (given fuel). -/
theorem decCharsAux_ne_nil (fuel n : Nat) : decCharsAux (fuel + 1) n ≠ [] := by
  unfold decCharsAux
  split
  · simp
  · simp

/-- Base64 encoding of a non-empty byte list is non-empty. -/
theorem b64EncodeBytes_ne_nil (l : List Nat) (h : l ≠ []) :
    b64EncodeBytes l ≠ [] := by
  match l with
  | [] => exact absurd rfl h
  | [a] => simp [b64EncodeBytes]
  | [a, b] => simp [b64EncodeBytes]
  | a :: b :: c :: rest => simp [b64EncodeBytes]

/-- Each six-bit group is encoded into the URL-safe alphabet. -/
theorem sixBitChar_mem (x : Nat) : sixBitChar x ∈ b64UrlSafeAlphabet := by
  have hlen : b64UrlSafeAlphabet.length = 64 := by decide
  have h : x % 64 < b64UrlSafeAlphabet.length := by
    rw [hlen]
    exact Nat.mod_lt _ (by decide)
  unfold sixBitChar
  rw [List.getD_eq_getElem?_getD, List.getElem?_eq_getElem h]
  simp only [Option.getD_some]
  exact List.getElem_mem h

/-- Every character produced by the base64 encoder belongs to the URL-safe
alphabet. -/
theorem b64EncodeBytes_mem_alphabet :
    ∀ (l : List Nat), ∀ c ∈ b64EncodeBytes l, c ∈ b64UrlSafeAlphabet
  | [] => by simp [b64EncodeBytes]
  | [a] => by
    intro c hc
    simp only [b64EncodeBytes, List.mem_cons, List.not_mem_nil, or_false] at hc
    rcases hc with rfl | rfl <;> exact sixBitChar_mem _
  | [a, b] => by
    intro c hc
    simp only [b64EncodeBytes, List.mem_cons, List.not_mem_nil, or_false] at hc
    rcases hc with rfl | rfl | rfl <;> exact sixBitChar_mem _
  | a :: b :: c :: rest => by
    intro x hx
    simp only [b64EncodeBytes, List.mem_cons] at hx
    rcases hx with rfl | rfl | rfl | rfl | hx
    · exact sixBitChar_mem _
    · exact sixBitChar_mem _
    · exact sixBitChar_mem _
    · exact sixBitChar_mem _
    · exact b64EncodeBytes_mem_alphabet rest x hx

/-- The generated id is a non-empty URL-safe token. -/
theorem generate_id_isUrlSafeToken (n : Nat) : isUrlSafeToken (generate_id n) := by
  constructor
  · show String.mk (b64EncodeBytes (stringBytes (natToDecimalString n))) ≠ ""
    intro h
    have hdata : b64EncodeBytes (stringBytes (natToDecimalString n)) = [] := by
      have := congrArg String.data h
      simpa using this
    have hbytes : stringBytes (natToDecimalString n) ≠ [] := by
      unfold stringBytes natToDecimalString
      simpa using decCharsAux_ne_nil n n
    exact b64EncodeBytes_ne_nil _ hbytes hdata
  · intro c hc
    exact b64EncodeBytes_mem_alphabet _ c hc

/-! Claim theorems. -/

/-- C1: for every link record stored in `links` (under the primary-key
invariant that ids are distinct), redirect on that link's id — when the lookup
query succeeds — returns HTTP 307 whose Location equals the stored target_url
and whose Cache-Control equals the fixed constant string, whatever the headers
and the fate of the statistic insert. -/
theorem redirect_stored_link (db : DbState) (link : Link)
    (ref ua : Option String) (statOutcome : DbCallOutcome)
    (hmem : link ∈ db.links) (hnodup : (db.links.map Link.id).Nodup) :
    (redirect db link.id ref ua none statOutcome).1 =
      Except.ok { status := 307, location := some link.target_url,
                  cacheControl := some DEFAULT_CACHE_CONTROL_HEADER_VALUE } :=
  redirect_of_find? db link.id ref ua statOutcome link
    (find?_id_eq_of_mem db.links link hmem hnodup)

/-- Witness for C1 at a concrete one-link store. -/
theorem redirect_stored_link_witness :
    (redirect { links := [⟨"abc", "https://example.com/"⟩], link_statistics := [] }
        "abc" none none none DbCallOutcome.completes).1 =
      Except.ok { status := 307, location := some "https://example.com/",
                  cacheControl := some DEFAULT_CACHE_CONTROL_HEADER_VALUE } :=
  redirect_stored_link
    { links := [⟨"abc", "https://example.com/"⟩], link_statistics := [] }
    ⟨"abc", "https://example.com/"⟩ none none DbCallOutcome.completes
    (by decide) (by decide)

/-- C3: redirect on an id matching no stored link fails with HTTP 404 and the
body Not Found, and leaves the whole store — in particular `link_statistics` —
unchanged. -/
theorem redirect_unknown_id (db : DbState) (requested : String)
    (ref ua : Option String) (statOutcome : DbCallOutcome)
    (habs : ∀ l ∈ db.links, l.id ≠ requested) :
    (redirect db requested ref ua none statOutcome).1 =
        Except.error (404, "Not Found") ∧
      (redirect db requested ref ua none statOutcome).2.link_statistics =
        db.link_statistics := by
  have hfind : db.links.find? (fun l => l.id == requested) = none := by
    rw [List.find?_eq_none]
    intro l hl
    simpa using habs l hl
  unfold redirect
  rw [hfind]
  exact ⟨rfl, rfl⟩

/-- Witness for C3 at a concrete store not containing the requested id. -/
theorem redirect_unknown_id_witness :
    (redirect { links := [⟨"abc", "https://example.com/"⟩],
                link_statistics := [⟨"abc", none, none⟩] }
        "missing" none none none DbCallOutcome.completes).1 =
        Except.error (404, "Not Found") ∧
      (redirect { links := [⟨"abc", "https://example.com/"⟩],
                  link_statistics := [⟨"abc", none, none⟩] }
          "missing" none none none DbCallOutcome.completes).2.link_statistics =
        [⟨"abc", none, none⟩] :=
  redirect_unknown_id
    { links := [⟨"abc", "https://example.com/"⟩],
      link_statistics := [⟨"abc", none, none⟩] }
    "missing" none none DbCallOutcome.completes (by decide)

/-- C5 counterexample: it is not the case that every database call is wrapped
in the 1000ms timeout — the link lookup performed by redirect has none. -/
theorem not_every_db_call_bounded :
    ¬ (∀ c ∈ dbCalls, c.timeoutMs = some 1000) := by
  decide

/-- C5 amended: every database call except the link lookup performed by
redirect is wrapped in the 1000ms timeout; that lookup is awaited with no
timeout at all. -/
theorem db_calls_bounded_except_redirect_lookup :
    redirectLinkLookupCall.timeoutMs = none ∧
      ∀ c ∈ dbCalls, c ≠ redirectLinkLookupCall → c.timeoutMs = some 1000 := by
  decide

/-- Witness for the amended C5 at the create_link insert call. -/
theorem db_calls_bounded_witness :
    ({ operation := "create_link",
       statement := "INSERT INTO links (id, target_url) VALUES ($1, $2) RETURNING id, target_url",
       timeoutMs := some 1000 } : DbCall).timeoutMs = some 1000 :=
  db_calls_bounded_except_redirect_lookup.2 _ (by decide) (by decide)

/-- C8: on a string that does not parse as an absolute URL, create_link fails
with 409 and body url malformed, update_link fails with 409 and body
Url malformed (distinct casing), and neither performs any database write: the
store is returned unchanged. -/
theorem malformed_url_conflict (db : DbState) (link_id : String) (n : Nat)
    (o1 o2 : DbCallOutcome) :
    create_link db none n o1 = (Except.error (409, "url malformed"), db) ∧
      update_link db link_id none o2 = (Except.error (409, "Url malformed"), db) :=
  ⟨rfl, rfl⟩

/-- C9: for an existing link, the outcome of the statistic insert — success,
database failure, or timeout — never affects the response: redirect returns
the same 307 with the stored Location in every case. -/
theorem redirect_ignores_statistics_outcome (db : DbState) (requested : String)
    (ref ua : Option String) (link : Link)
    (hfound : db.links.find? (fun l => l.id == requested) = some link) :
    ∀ statOutcome : DbCallOutcome,
      (redirect db requested ref ua none statOutcome).1 =
        Except.ok { status := 307, location := some link.target_url,
                    cacheControl := some DEFAULT_CACHE_CONTROL_HEADER_VALUE } :=
  fun o => redirect_of_find? db requested ref ua o link hfound

/-- Witness for C9: a timed-out statistic insert still yields the 307. -/
theorem redirect_ignores_statistics_outcome_witness :
    (redirect { links := [⟨"id1", "https://a.example/"⟩], link_statistics := [] }
        "id1" (some "ref") none none DbCallOutcome.timesOut).1 =
      Except.ok { status := 307, location := some "https://a.example/",
                  cacheControl := some DEFAULT_CACHE_CONTROL_HEADER_VALUE } :=
  redirect_ignores_statistics_outcome
    { links := [⟨"id1", "https://a.example/"⟩], link_statistics := [] }
    "id1" (some "ref") none ⟨"id1", "https://a.example/"⟩ (by decide)
    DbCallOutcome.timesOut

/-- C6 counterexample: the claim that every value from 0 to 2^32 - 1 inclusive
is a possible draw fails at the explicit input 2^32 - 1, because the source
samples the half-open range 0..u32::MAX. -/
theorem not_every_u32_drawable :
    ¬ (∀ n : Nat, n ≤ 2 ^ 32 - 1 → possibleDraw n) := by
  intro h
  exact absurd (h (2 ^ 32 - 1) (Nat.le_refl _)) (by decide)

/-- C6 amended: the draw ranges over 0 to 2^32 - 2 inclusive (the source
samples gen_range over the half-open range 0..u32::MAX), and for every
possible draw n the generated id is the URL-safe unpadded base64 encoding of
the base-10 decimal rendering of n. -/
theorem generate_id_draw_and_encoding :
    (∀ n : Nat, possibleDraw n ↔ n ≤ 2 ^ 32 - 2) ∧
      ∀ n : Nat, possibleDraw n →
        generate_id n =
          String.mk (b64EncodeBytes (stringBytes (natToDecimalString n))) := by
  constructor
  · intro n
    show n < u32MAX ↔ n ≤ 2 ^ 32 - 2
    unfold u32MAX
    omega
  · intro n _
    rfl

/-- Witness for the amended C6 at the draw 5. -/
theorem generate_id_draw_and_encoding_witness :
    (possibleDraw 5 ↔ 5 ≤ 2 ^ 32 - 2) ∧
      generate_id 5 = String.mk (b64EncodeBytes (stringBytes (natToDecimalString 5))) :=
  ⟨generate_id_draw_and_encoding.1 5, generate_id_draw_and_encoding.2 5 (by decide)⟩

/-- C7: update_link on an id matching no row, with a URL that parses, when the
database call completes within the timeout, fails with HTTP 500 — not 404 —
carrying the textual description of the single-row-fetch error as the body. -/
theorem update_link_missing_row (db : DbState) (link_id url : String)
    (habs : ∀ l ∈ db.links, l.id ≠ link_id) :
    (update_link db link_id (some url) DbCallOutcome.completes).1 =
      Except.error (500, rowNotFoundDescription) := by
  have hfind : db.links.find? (fun l => l.id == link_id) = none := by
    rw [List.find?_eq_none]
    intro l hl
    simpa using habs l hl
  unfold update_link
  rw [hfind]
  rfl

/-- Witness for C7 at a store without the requested id. -/
theorem update_link_missing_row_witness :
    (update_link { links := [⟨"abc", "https://example.com/"⟩], link_statistics := [] }
        "missing" (some "https://example.org/") DbCallOutcome.completes).1 =
      Except.error (500, rowNotFoundDescription) :=
  update_link_missing_row
    { links := [⟨"abc", "https://example.com/"⟩], link_statistics := [] }
    "missing" "https://example.org/" (by decide)

/-- C2: when the target URL parses with normalized form V and the INSERT
completes within the timeout, create_link returns the new store and a Link
whose target_url is V and whose id — the generated token — is a non-empty
URL-safe token; a subsequent redirect on that id returns 307 with Location
equal to the stored target_url. -/
theorem create_link_then_redirect (db : DbState) (V : String) (n : Nat)
    (l : Link) (db' : DbState)
    (hcreate : create_link db (some V) n DbCallOutcome.completes =
      (Except.ok l, db'))
    (ref ua : Option String) (statOutcome : DbCallOutcome) :
    l.target_url = V ∧ l.id = generate_id n ∧ isUrlSafeToken l.id ∧
      (redirect db' l.id ref ua none statOutcome).1 =
        Except.ok { status := 307, location := some l.target_url,
                    cacheControl := some DEFAULT_CACHE_CONTROL_HEADER_VALUE } := by
  simp only [create_link] at hcreate
  by_cases hdup : db.links.any (fun x => x.id == generate_id n)
  · rw [if_pos hdup] at hcreate
    exact absurd (congrArg Prod.fst hcreate) (by simp)
  · rw [if_neg hdup] at hcreate
    have hl : l = ⟨generate_id n, V⟩ := by
      have h1 := congrArg Prod.fst hcreate
      simpa using h1.symm
    have hdb : db' = { db with links := db.links ++ [⟨generate_id n, V⟩] } := by
      have h2 := congrArg Prod.snd hcreate
      simpa using h2.symm
    subst hl
    subst hdb
    refine ⟨rfl, rfl, generate_id_isUrlSafeToken n, ?_⟩
    apply redirect_of_find?
    have hnone :
        db.links.find? (fun x => x.id == (Link.mk (generate_id n) V).id) = none := by
      rw [List.find?_eq_none]
      intro x hx hbeq
      exact hdup (List.any_eq_true.mpr ⟨x, hx, hbeq⟩)
    show (db.links ++ [Link.mk (generate_id n) V]).find?
        (fun x => x.id == (Link.mk (generate_id n) V).id) =
      some (Link.mk (generate_id n) V)
    rw [List.find?_append, hnone]
    simp [List.find?]

/-- Witness for C2: creating a link in the empty store with draw 0 yields the
token MA and a working redirect. -/
theorem create_link_then_redirect_witness :
    (Link.mk "MA" "https://example.com/").target_url = "https://example.com/" ∧
      (Link.mk "MA" "https://example.com/").id = generate_id 0 ∧
      isUrlSafeToken (Link.mk "MA" "https://example.com/").id ∧
      (redirect { links := [Link.mk "MA" "https://example.com/"],
                  link_statistics := [] }
          (Link.mk "MA" "https://example.com/").id none none none
          DbCallOutcome.completes).1 =
        Except.ok { status := 307,
                    location := some (Link.mk "MA" "https://example.com/").target_url,
                    cacheControl := some DEFAULT_CACHE_CONTROL_HEADER_VALUE } :=
  create_link_then_redirect { links := [], link_statistics := [] }
    "https://example.com/" 0 (Link.mk "MA" "https://example.com/")
    { links := [Link.mk "MA" "https://example.com/"], link_statistics := [] }
    rfl none none DbCallOutcome.completes

/-- Summing, over each deduplicated key kept by a filter, the number of its
occurrences in the key list recovers the number of keys satisfying the filter;
stated for any lawful BEq instance alongside decidable equality. -/
theorem sum_map_count_dedup_filter {α : Type} [DecidableEq α] [BEq α]
    [LawfulBEq α] (p : α → Bool) (l : List α) :
    ((l.dedup.filter p).map fun x => l.count x).sum = l.countP p := by
  have hc : ∀ x : α, l.count x = @List.count _ instBEqOfDecidableEq x l := by
    intro x
    rw [List.count_eq_countP, @List.count_eq_countP _ instBEqOfDecidableEq]
    refine List.countP_congr ?_
    intro a _
    simp [beq_iff_eq]
  calc ((l.dedup.filter p).map fun x => l.count x).sum
      = ((l.dedup.filter p).map fun x =>
          @List.count _ instBEqOfDecidableEq x l).sum := by
        rw [List.map_congr_left (fun x _ => hc x)]
    _ = l.countP p := List.sum_map_count_dedup_filter_eq_countP p l

/-- C4: on a completed query, get_link_statistics returns one row per distinct
(referer, user_agent) pair among the statistics rows with the requested
link_id — the pairs are distinct and are exactly those occurring for that id —
each row's amount counts its group, the amounts sum to the total number of
rows recorded for that id, and with no rows for the id the call still succeeds
with the empty list. -/
theorem get_link_statistics_grouping (db : DbState) (link_id : String)
    (result : List CounterLinkStatistics)
    (h : get_link_statistics db link_id DbCallOutcome.completes = Except.ok result) :
    (result.map (fun c => (c.referer, c.user_agent))).Nodup ∧
      (∀ ref ua : Option String,
        (ref, ua) ∈ result.map (fun c => (c.referer, c.user_agent)) ↔
          ∃ r ∈ db.link_statistics,
            r.link_id = link_id ∧ r.referer = ref ∧ r.user_agent = ua) ∧
      (∀ c ∈ result, c.amount =
        some ((db.link_statistics.filter (fun r =>
          r.link_id == link_id && r.referer == c.referer &&
            r.user_agent == c.user_agent)).length : Int)) ∧
      (result.map (fun c => c.amount.getD 0)).sum =
        ((db.link_statistics.filter (fun r => r.link_id == link_id)).length : Int) ∧
      (db.link_statistics.filter (fun r => r.link_id == link_id) = [] →
        result = []) := by
  simp only [get_link_statistics, Except.ok.injEq] at h
  subst h
  simp only [statisticsQuery]
  refine ⟨?_, ?_, ?_, ?_, ?_⟩
  · rw [List.map_map]
    refine List.Nodup.map_on ?_ (List.Nodup.filter _ (List.nodup_dedup _))
    intro x hx y hy hxy
    obtain ⟨x1, x2, x3⟩ := x
    obtain ⟨y1, y2, y3⟩ := y
    have hx1 : x1 = link_id := by simpa using (List.mem_filter.mp hx).2
    have hy1 : y1 = link_id := by simpa using (List.mem_filter.mp hy).2
    simp only [Function.comp_apply, Prod.mk.injEq] at hxy
    simp [hx1, hy1, hxy.1, hxy.2]
  · intro ref ua
    rw [List.map_map]
    constructor
    · intro hmem
      obtain ⟨k, hk, hkeq⟩ := List.mem_map.mp hmem
      obtain ⟨k1, k2, k3⟩ := k
      simp only [Function.comp_apply, Prod.mk.injEq] at hkeq
      obtain ⟨rfl, rfl⟩ := hkeq
      have hk' := List.mem_filter.mp hk
      have hk1 : k1 = link_id := by simpa using hk'.2
      obtain ⟨r, hr, hrt⟩ := List.mem_map.mp (List.mem_dedup.mp hk'.1)
      refine ⟨r, hr, ?_, ?_, ?_⟩
      · have h1 := congrArg (fun t => t.1) hrt
        simpa [tripleOf, hk1] using h1
      · have h2 := congrArg (fun t => t.2.1) hrt
        simpa [tripleOf] using h2
      · have h3 := congrArg (fun t => t.2.2) hrt
        simpa [tripleOf] using h3
    · rintro ⟨r, hr, h1, h2, h3⟩
      refine List.mem_map.mpr ⟨tripleOf r,
        List.mem_filter.mpr
          ⟨List.mem_dedup.mpr (List.mem_map_of_mem tripleOf hr), ?_⟩, ?_⟩
      · simp [tripleOf, h1]
      · simp [tripleOf, h2, h3]
  · intro c hc
    obtain ⟨k, hk, rfl⟩ := List.mem_map.mp hc
    obtain ⟨k1, k2, k3⟩ := k
    have hk' := List.mem_filter.mp hk
    have hk1 : k1 = link_id := by simpa using hk'.2
    have hnat : (db.link_statistics.map tripleOf).count (k1, k2, k3) =
        (db.link_statistics.filter (fun r =>
          r.link_id == link_id && r.referer == k2 && r.user_agent == k3)).length := by
      rw [List.count_eq_countP, List.countP_map, ← List.countP_eq_length_filter]
      apply List.countP_congr
      intro r _
      simp only [Function.comp_apply, beq_iff_eq, Bool.and_eq_true, Prod.mk.injEq, tripleOf, hk1]
      tauto
    show some (((db.link_statistics.map tripleOf).count (k1, k2, k3) : Nat) : Int) = _
    rw [hnat]
  · rw [List.map_map]
    have hnat :
        (((db.link_statistics.map tripleOf).dedup.filter
            (fun k => k.1 == link_id)).map
          (fun k => (db.link_statistics.map tripleOf).count k)).sum =
        (db.link_statistics.filter (fun r => r.link_id == link_id)).length := by
      rw [sum_map_count_dedup_filter, List.countP_map,
        ← List.countP_eq_length_filter]
      rfl
    show (((db.link_statistics.map tripleOf).dedup.filter
          (fun k => k.1 == link_id)).map
        (fun k => (((db.link_statistics.map tripleOf).count k : Nat) : Int))).sum = _
    rw [← hnat, Nat.cast_list_sum, List.map_map]
    rfl
  · intro hemp
    have hkeys : (db.link_statistics.map tripleOf).dedup.filter
        (fun k => k.1 == link_id) = [] := by
      rw [List.eq_nil_iff_forall_not_mem]
      intro k hk
      have hk' := List.mem_filter.mp hk
      have hk1 : k.1 = link_id := by simpa using hk'.2
      obtain ⟨r, hr, hrt⟩ := List.mem_map.mp (List.mem_dedup.mp hk'.1)
      have hrl : r.link_id = link_id := by
        have h1 := congrArg (fun t => t.1) hrt
        simpa [tripleOf, hk1] using h1
      have hrf : r ∈ db.link_statistics.filter (fun r => r.link_id == link_id) :=
        List.mem_filter.mpr ⟨hr, by simpa using hrl⟩
      rw [hemp] at hrf
      exact absurd hrf (List.not_mem_nil r)
    rw [hkeys]
    rfl

/-- Witness for C4 at a concrete three-row statistics table: the amounts sum
to the number of rows recorded for the requested id. -/
theorem get_link_statistics_grouping_witness :
    (([⟨some 2, some "r", none⟩] : List CounterLinkStatistics).map
        (fun c => c.amount.getD 0)).sum =
      ((([⟨"a", some "r", none⟩, ⟨"a", some "r", none⟩,
          ⟨"b", none, none⟩] : List LinkStatRow).filter
            (fun r => r.link_id == "a")).length : Int) :=
  (get_link_statistics_grouping
      { links := [],
        link_statistics := [⟨"a", some "r", none⟩, ⟨"a", some "r", none⟩,
          ⟨"b", none, none⟩] }
      "a" [⟨some 2, some "r", none⟩] rfl).2.2.2.1

/-- C10: every row returned by a completed get_link_statistics call carries an
amount that is present (not None) and at least 1. -/
theorem statistics_amount_positive (db : DbState) (link_id : String)
    (result : List CounterLinkStatistics)
    (h : get_link_statistics db link_id DbCallOutcome.completes = Except.ok result) :
    ∀ c ∈ result, ∃ m : Int, c.amount = some m ∧ 1 ≤ m := by
  simp only [get_link_statistics, Except.ok.injEq] at h
  subst h
  intro c hc
  simp only [statisticsQuery] at hc
  obtain ⟨k, hk, rfl⟩ := List.mem_map.mp hc
  refine ⟨((db.link_statistics.map tripleOf).count k : Int), rfl, ?_⟩
  have hk' := List.mem_filter.mp hk
  have hmem : k ∈ db.link_statistics.map tripleOf := List.mem_dedup.mp hk'.1
  have hpos : 0 < (db.link_statistics.map tripleOf).count k :=
    List.count_pos_iff.mpr hmem
  exact_mod_cast hpos

/-- Witness for C10 at a concrete one-row statistics table. -/
theorem statistics_amount_positive_witness :
    ∃ m : Int,
      (CounterLinkStatistics.mk (some 1) none (some "ua")).amount = some m ∧
        1 ≤ m :=
  statistics_amount_positive
    { links := [], link_statistics := [⟨"x", none, some "ua"⟩] }
    "x" [⟨some 1, none, some "ua"⟩] rfl
    (CounterLinkStatistics.mk (some 1) none (some "ua")) (by decide)

end LinkShortner
